import Mathlib

/-!
Verification of the cache resolution engine of the `revproxy` package
(a caching HTTP reverse proxy backed by a memory cache, a local disk
cache, and a remote S3 cache).

The Go source is embedded shallowly:

* strings are Lean `String`s (Go strings are byte strings; the inputs the
  claims touch are ASCII, where the two notions agree character for
  character);
* `time.Duration` is `Int`, counting nanoseconds, with 64-bit two's
  complement wraparound made explicit (`wrap64`) at the one place the
  source multiplies (`time.Duration(sec) * time.Second`);
* `http.Header` is a function from canonical header names to the list of
  values (`Headers` below); `Get` returns the first value or `""`, `Set`
  replaces all values, exactly as in `net/http`;
* the stateful `ServeHTTP` handler becomes a pure function of the request
  together with an environment (`Env`) recording what each cache tier
  would answer and what the origin would reply; its result records the
  response sent to the client, the per-request counter increments, and a
  trace of the cache-tier events in program order.
-/

namespace RevProxy

/-- Go's `unicode.IsSpace`, used by `strings.TrimSpace`: the White_Space
code points. -/
def goIsSpace (c : Char) : Bool :=
  let n := c.toNat
  n == 0x09 || n == 0x0A || n == 0x0B || n == 0x0C || n == 0x0D || n == 0x20 ||
  n == 0x85 || n == 0xA0 || n == 0x1680 || (0x2000 ≤ n && n ≤ 0x200A) ||
  n == 0x2028 || n == 0x2029 || n == 0x202F || n == 0x205F || n == 0x3000

/-- Go `strings.TrimSpace`: drop leading and trailing white space. -/
def trimSpace (s : List Char) : List Char :=
  ((s.dropWhile goIsSpace).reverse.dropWhile goIsSpace).reverse

/-- Go `strings.Split(s, ",")`: split on every comma; the empty string
yields one empty element. -/
def splitComma : List Char → List (List Char)
  | [] => [[]]
  | c :: cs =>
    if c = ',' then [] :: splitComma cs
    else
      match splitComma cs with
      | [] => [[c]]
      | hd :: tl => (c :: hd) :: tl

/-- Go `strings.Cut(s, "=")`: `(before, after, found)` around the first
`=`; when there is none, `(s, "", false)`. -/
def cutEq : List Char → List Char × List Char × Bool
  | [] => ([], [], false)
  | c :: cs =>
    if c = '=' then ([], cs, true)
    else
      let r := cutEq cs
      (c :: r.1, r.2.1, r.2.2)

/-- Go `strconv.Atoi` (64-bit int): an optional sign followed by one or
more ASCII digits, value within the `int64` range; anything else is an
error (`none`). -/
def atoi (s : List Char) : Option Int :=
  let signed :
      Bool × List Char :=
    match s with
    | '-' :: rest => (true, rest)
    | '+' :: rest => (false, rest)
    | other => (false, other)
  let neg := signed.1
  let digits := signed.2
  if digits = [] then none
  else if digits.all (fun c => '0' ≤ c && c ≤ '9') then
    let n : Nat := digits.foldl (fun acc d => acc * 10 + (d.toNat - 48)) 0
    let v : Int := if neg then -(n : Int) else (n : Int)
    if -(2 ^ 63) ≤ v ∧ v < 2 ^ 63 then some v else none
  else none

/-- 64-bit two's complement wraparound, for Go `int64` arithmetic. -/
def wrap64 (x : Int) : Int := (x + 2 ^ 63) % 2 ^ 64 - 2 ^ 63

/-- The `cacheControl` struct: the set of directive keys (a list, queried
only through membership, modelling `mapset.Set[string]`) and the `MaxAge`
duration in nanoseconds. -/
structure CacheControl where
  keys : List String
  maxAge : Int

/-- `mapset.Set.Has`: membership in the key set. -/
def CacheControl.has (cc : CacheControl) (k : String) : Bool := cc.keys.contains k

/-- One iteration of the loop in `parseCacheControl`: trim the element,
cut at the first `=`; when the key is `max-age` and the value parses as an
integer, set `MaxAge` to that many seconds (`time.Duration(sec) *
time.Second`, a wrapping `int64` multiply); record the key either way. -/
def ccStep (out : CacheControl) (v : List Char) : CacheControl :=
  let t := cutEq (trimSpace v)
  let key := t.1
  let val := t.2.1
  let ok := t.2.2
  let out1 :=
    if ok && key == "max-age".toList then
      match atoi val with
      | some sec => { out with maxAge := wrap64 (sec * 1000000000) }
      | none => out
    else out
  { out1 with keys := String.mk key :: out1.keys }

/-- `parseCacheControl` from the source: fold `ccStep` over the
comma-separated elements, starting from the zero value. -/
def parseCacheControl (s : String) : CacheControl :=
  (splitComma s.toList).foldl ccStep ⟨[], 0⟩

/-- Header map: canonical header name to list of values. -/
def Headers := String → List String

/-- `http.Header.Get`: the first value, or `""` when absent. -/
def Headers.get (h : Headers) (k : String) : String :=
  match h k with
  | [] => ""
  | v :: _ => v

/-- `http.Header.Set`: replace all values of the key with the one value. -/
def Headers.set (h : Headers) (k v : String) : Headers :=
  fun q => if q = k then [v] else h q

/-- A header map with no entries. -/
def emptyHeaders : Headers := fun _ => []

/-- The parts of an `http.Request` the resolver reads. -/
structure Request where
  method : String
  host : String
  header : Headers

/-- The parts of an `http.Response` the resolver reads: status code,
headers, and the body bytes. -/
structure Response where
  status : Nat
  header : Headers
  body : List Nat

/-- `hostMatchesTarget` from the source: `slices.Contains(targets, host)`. -/
def hostMatchesTarget (host : String) (targets : List String) : Bool :=
  targets.contains host

/-- `canCacheRequest` from the source: the method is `GET` and the request
`Cache-Control` does not contain `no-store`. -/
def canCacheRequest (r : Request) : Bool :=
  r.method == "GET" &&
    !(parseCacheControl (r.header.get "Cache-Control")).has "no-store"

/-- `goodLongTime = 60 * 24 * time.Hour` in nanoseconds (no overflow:
5.184e15 fits in `int64`). -/
def goodLongTime : Int := 5184000 * 1000000000

/-- `canCacheResponse` from the source: status 200; `no-store` forbids,
`immutable` allows, otherwise `must-revalidate` together with a `max-age`
beyond `goodLongTime` allows. -/
def canCacheResponse (rsp : Response) : Bool :=
  if rsp.status ≠ 200 then false
  else
    let cc := parseCacheControl (rsp.header.get "Cache-Control")
    if cc.has "no-store" then false
    else if cc.has "immutable" then true
    else cc.has "must-revalidate" && decide (goodLongTime < cc.maxAge)

/-- One hour in nanoseconds. -/
def hourNs : Int := 3600 * 1000000000

/-- `canMemoryCache` from the source: status 200; `no-store` or `no-cache`
forbid; a `max-age` strictly between 0 and one hour yields `(maxAge,
true)`; otherwise `(0, false)`. -/
def canMemoryCache (rsp : Response) : Int × Bool :=
  if rsp.status ≠ 200 then (0, false)
  else
    let cc := parseCacheControl (rsp.header.get "Cache-Control")
    if cc.has "no-store" || cc.has "no-cache" then (0, false)
    else if 0 < cc.maxAge ∧ cc.maxAge < hourNs then (cc.maxAge, true)
    else (0, false)

/-- Modelled from the spec: `setXCacheInfo` is declared in a part of the
repository outside the provided source files. Per the spec (§3, §6 and the
per-branch descriptions in §4.G), it sets the `X-Cache` header to the
disposition token, replacing any existing value, and sets `X-Cache-Id` to
the given id whenever the response intersected the cache — the branches
that did not pass the empty id. -/
def setXCacheInfo (h : Headers) (disp id : String) : Headers :=
  let h1 := h.set "X-Cache" disp
  if id = "" then h1 else h1.set "X-Cache-Id" id

/-- A cache entry: the preserved response headers and the body bytes. -/
structure Entry where
  hdr : Headers
  body : List Nat

/-- The per-request counters of the `Server`, as the increments one call
to `ServeHTTP` performs (the push counters belong to the background
`cacheStoreS3` task, outside the provided source, and stay 0 here). -/
structure Counters where
  reqReceived : Nat
  reqMemoryHit : Nat
  reqLocalHit : Nat
  reqLocalMiss : Nat
  reqFaultHit : Nat
  reqFaultMiss : Nat
  reqForward : Nat
  rspSave : Nat
  rspSaveMem : Nat
  rspSaveError : Nat
  rspSaveBytes : Nat
  rspPush : Nat
  rspPushError : Nat
  rspPushBytes : Nat
  rspNotCached : Nat
deriving DecidableEq

/-- All counters zero. -/
def Counters.zero : Counters := ⟨0, 0, 0, 0, 0, 0, 0, 0, 0, 0, 0, 0, 0, 0, 0⟩

/-- Cache-tier events of one request, in program order: lookups
(`cacheLoadMemory` / `cacheLoadLocal` / `cacheLoadS3`), writes
(`cacheStoreMemory` / `cacheStoreLocal`, with the success of the local
write), submission of the background `cacheStoreS3` task, and the forward
of the request to the origin. A store event also carries the entry's
headers in the source; the events record the key and body, which determine
the entry for the claims below. -/
inductive Event where
  | memLoad (hash : String)
  | localLoad (hash : String)
  | s3Load (hash : String)
  | memStore (hash : String) (maxAge : Int) (body : List Nat)
  | localStore (hash : String) (body : List Nat) (ok : Bool)
  | s3Store (hash : String) (body : List Nat)
  | forward
deriving DecidableEq

/-- The environment one call to `ServeHTTP` runs in: what each cache tier
answers for the request's hash (`none` is a miss or error, treated alike
by the source), whether a synchronous `cacheStoreLocal` would succeed, and
the response the origin would send. -/
structure Env where
  memLoad : Option Entry
  localLoad : Option Entry
  s3Load : Option Entry
  localStoreOk : Bool
  originRsp : Response

/-- The configuration of the `Server` the claims read: the target hosts. -/
structure Config where
  targets : List String

/-- What one call to `ServeHTTP` produces: the response to the client
(status, headers, body — a response served from the cache gets status 200,
Go's default on the first write), the counter increments, and the event
trace. -/
structure ServeResult where
  status : Nat
  header : Headers
  body : List Nat
  counters : Counters
  trace : List Event

/-- Lines 232–287 of the source: increment `reqForward`, forward to the
origin; when the request was cacheable, classify the response
(`canMemoryCache`, `canCacheResponse`) and set the fetch disposition,
recording the deferred `updateCache` work as events; when it was not,
the response passes through untouched. -/
def forwardOrigin (hash : String) (env : Env) (canCache : Bool)
    (c : Counters) (tr : List Event) : ServeResult :=
  let c := { c with reqForward := c.reqForward + 1 }
  let rsp := env.originRsp
  if canCache then
    let mv := canMemoryCache rsp
    let maxAge := mv.1
    let isVolatile := mv.2
    let ccr := canCacheResponse rsp
    if !ccr && !isVolatile then
      { status := rsp.status, header := setXCacheInfo rsp.header "fetch, uncached" "",
        body := rsp.body,
        counters := { c with rspNotCached := c.rspNotCached + 1 },
        trace := tr ++ [.forward] }
    else if !ccr && isVolatile then
      { status := rsp.status,
        header := setXCacheInfo rsp.header "fetch, cached, volatile" hash,
        body := rsp.body,
        counters := { c with rspSaveMem := c.rspSaveMem + 1 },
        trace := tr ++ [.forward, .memStore hash maxAge rsp.body] }
    else
      if env.localStoreOk then
        { status := rsp.status, header := setXCacheInfo rsp.header "fetch, cached" hash,
          body := rsp.body,
          counters := { c with rspSave := c.rspSave + 1,
                               rspSaveBytes := c.rspSaveBytes + rsp.body.length },
          trace := tr ++ [.forward, .localStore hash rsp.body true,
                          .s3Store hash rsp.body] }
      else
        { status := rsp.status, header := setXCacheInfo rsp.header "fetch, cached" hash,
          body := rsp.body,
          counters := { c with rspSaveError := c.rspSaveError + 1 },
          trace := tr ++ [.forward, .localStore hash rsp.body false] }
  else
    { status := rsp.status, header := rsp.header, body := rsp.body,
      counters := c, trace := tr ++ [.forward] }

/-- `ServeHTTP` from the source, as a function of the request, its URL
hash (`hashRequestURL(r.URL)`, passed in since SHA-256 is computed by the
standard library and never inspected), and the environment: reject
non-target hosts with 502; for cacheable requests try memory, local, then
S3 (faulting an S3 hit into the local cache synchronously); otherwise or
on a full miss forward to the origin. -/
def serveHTTP (cfg : Config) (r : Request) (hash : String) (env : Env) : ServeResult :=
  let c := { Counters.zero with reqReceived := 1 }
  if !hostMatchesTarget r.host cfg.targets then
    { status := 502, header := emptyHeaders, body := [], counters := c, trace := [] }
  else
    let canCache := canCacheRequest r
    if canCache then
      match env.memLoad with
      | some e =>
        { status := 200, header := setXCacheInfo e.hdr "hit, memory" hash,
          body := e.body,
          counters := { c with reqMemoryHit := 1 }, trace := [.memLoad hash] }
      | none =>
        match env.localLoad with
        | some e =>
          { status := 200, header := setXCacheInfo e.hdr "hit, local" hash,
            body := e.body,
            counters := { c with reqLocalHit := 1 },
            trace := [.memLoad hash, .localLoad hash] }
        | none =>
          match env.s3Load with
          | some e =>
            { status := 200, header := setXCacheInfo e.hdr "hit, remote" hash,
              body := e.body,
              counters := { c with reqLocalMiss := 1, reqFaultHit := 1 },
              trace := [.memLoad hash, .localLoad hash, .s3Load hash,
                        .localStore hash e.body env.localStoreOk] }
          | none =>
            forwardOrigin hash env true
              { c with reqLocalMiss := 1, reqFaultMiss := 1 }
              [.memLoad hash, .localLoad hash, .s3Load hash]
    else
      forwardOrigin hash env false c []

/-- The six disposition tokens of the `X-Cache` header. -/
def dispositions : List String :=
  ["hit, memory", "hit, local", "hit, remote",
   "fetch, cached", "fetch, cached, volatile", "fetch, uncached"]

/-- The parts of a `url.URL` that `rewriteRequest` touches. -/
structure URL where
  scheme : String
  host : String

/-- The parts of a `httputil.ProxyRequest` that `rewriteRequest` touches. -/
structure ProxyRequest where
  inRequestURI : String
  inHost : String
  outURL : Option URL
  outHost : String

/-- `rewriteRequest` from the source. Go's `url.ParseRequestURI` is the
standard library's, so it enters as the parameter `parse`; it returns
`none` exactly when the Go call returns a nil `*url.URL` with an error.
The source discards the error (`u, _ := ...`) and immediately assigns
`u.Host`, a nil-pointer dereference when the parse failed; that panic is
modelled as the `none` result. -/
def rewriteRequest (parse : String → Option URL) (pr : ProxyRequest) :
    Option ProxyRequest :=
  match parse pr.inRequestURI with
  | none => none
  | some u0 =>
    let u1 := { u0 with host := pr.inHost }
    let u2 := if u1.scheme = "" then { u1 with scheme := "https" } else u1
    some { pr with outURL := some u2, outHost := u2.host }

/-! ### Helper lemmas about `setXCacheInfo` -/

/-- After `setXCacheInfo`, the `X-Cache` value list is exactly the one
disposition token. -/
theorem setXCacheInfo_get_xcache (h : Headers) (disp id : String) :
    setXCacheInfo h disp id "X-Cache" = [disp] := by
  unfold setXCacheInfo Headers.set
  split <;> simp

/-- After `setXCacheInfo` with a nonempty id, the `X-Cache-Id` value list
is exactly the id. -/
theorem setXCacheInfo_get_id (h : Headers) (disp id : String) (hid : id ≠ "") :
    setXCacheInfo h disp id "X-Cache-Id" = [id] := by
  unfold setXCacheInfo Headers.set
  rw [if_neg hid]
  simp

/-- `setXCacheInfo` leaves every other header untouched. -/
theorem setXCacheInfo_get_other (h : Headers) (disp id k : String)
    (h1 : k ≠ "X-Cache") (h2 : k ≠ "X-Cache-Id") :
    setXCacheInfo h disp id k = h k := by
  unfold setXCacheInfo Headers.set
  split <;> simp [h1, h2]

/-! ### C1: durable cacheability of a response -/

/-- C1: `canCacheResponse rsp` is true iff the status is 200, the parsed
response `Cache-Control` does not contain `no-store`, and either it
contains `immutable`, or it contains `must-revalidate` and its `max-age`
exceeds 60 days (`goodLongTime` = 1440 hours, in nanoseconds); in every
other case it is false. -/
theorem canCacheResponse_spec (rsp : Response) :
    canCacheResponse rsp = true ↔
      (rsp.status = 200 ∧
        (parseCacheControl (rsp.header.get "Cache-Control")).has "no-store" = false ∧
        ((parseCacheControl (rsp.header.get "Cache-Control")).has "immutable" = true ∨
          ((parseCacheControl (rsp.header.get "Cache-Control")).has "must-revalidate" = true ∧
            goodLongTime < (parseCacheControl (rsp.header.get "Cache-Control")).maxAge))) := by
  by_cases h1 : rsp.status = 200
  · cases hns : (parseCacheControl (rsp.header.get "Cache-Control")).has "no-store"
    · cases him : (parseCacheControl (rsp.header.get "Cache-Control")).has "immutable"
      · cases hmr : (parseCacheControl (rsp.header.get "Cache-Control")).has "must-revalidate"
        · simp [canCacheResponse, h1, hns, him, hmr]
        · by_cases hlt :
            goodLongTime < (parseCacheControl (rsp.header.get "Cache-Control")).maxAge
          · simp [canCacheResponse, h1, hns, him, hmr, hlt]
          · simp [canCacheResponse, h1, hns, him, hmr, hlt]
      · simp [canCacheResponse, h1, hns, him]
    · simp [canCacheResponse, h1, hns]
  · simp [canCacheResponse, h1]

/-! ### C4: memory (volatile) cacheability of a response -/

/-- C4: `canMemoryCache rsp` is `(0, false)` when the status is not 200 or
the parsed `Cache-Control` contains `no-store` or `no-cache`; otherwise it
is `(maxAge, true)` exactly when the parsed `max-age` lies strictly
between 0 and one hour, and `(0, false)` in all remaining cases. -/
theorem canMemoryCache_spec (rsp : Response) :
    ((rsp.status ≠ 200 ∨
        (parseCacheControl (rsp.header.get "Cache-Control")).has "no-store" = true ∨
        (parseCacheControl (rsp.header.get "Cache-Control")).has "no-cache" = true) →
      canMemoryCache rsp = (0, false)) ∧
    (rsp.status = 200 →
      (parseCacheControl (rsp.header.get "Cache-Control")).has "no-store" = false →
      (parseCacheControl (rsp.header.get "Cache-Control")).has "no-cache" = false →
      ((0 < (parseCacheControl (rsp.header.get "Cache-Control")).maxAge ∧
          (parseCacheControl (rsp.header.get "Cache-Control")).maxAge < hourNs) →
          canMemoryCache rsp =
            ((parseCacheControl (rsp.header.get "Cache-Control")).maxAge, true)) ∧
      (¬(0 < (parseCacheControl (rsp.header.get "Cache-Control")).maxAge ∧
          (parseCacheControl (rsp.header.get "Cache-Control")).maxAge < hourNs) →
          canMemoryCache rsp = (0, false))) := by
  constructor
  · rintro (h | h | h)
    · simp [canMemoryCache, h]
    · by_cases h200 : rsp.status = 200 <;> simp [canMemoryCache, h, h200]
    · by_cases h200 : rsp.status = 200 <;> simp [canMemoryCache, h, h200]
  · intro h200 hns hnc
    by_cases hma : 0 < (parseCacheControl (rsp.header.get "Cache-Control")).maxAge ∧
        (parseCacheControl (rsp.header.get "Cache-Control")).maxAge < hourNs
    · exact ⟨fun _ => by simp [canMemoryCache, h200, hns, hnc, hma],
        fun hc => absurd hma hc⟩
    · exact ⟨fun hc => absurd hc hma,
        fun _ => by simp [canMemoryCache, h200, hns, hnc, hma]⟩

/-! ### C9: exact host matching -/

/-- C9: target matching is exact, case-sensitive string equality:
`hostMatchesTarget host targets` is true iff `host` equals some element of
`targets` character for character; in particular a `Host` carrying a port
suffix does not match the bare configured host, and such a request is
rejected with 502. -/
theorem hostMatchesTarget_exact_match :
    (∀ (host : String) (targets : List String),
        hostMatchesTarget host targets = true ↔ host ∈ targets) ∧
    hostMatchesTarget "host.example.com:8080" ["host.example.com"] = false ∧
    hostMatchesTarget "Host.example.com" ["host.example.com"] = false ∧
    (∀ (r : Request) (hash : String) (env : Env),
        r.host = "host.example.com:8080" →
        (serveHTTP ⟨["host.example.com"]⟩ r hash env).status = 502) := by
  refine ⟨?_, by decide, by decide, ?_⟩
  · intro host targets
    exact List.elem_iff
  · intro r hash env hr
    have hfm : hostMatchesTarget "host.example.com:8080" ["host.example.com"] = false := by
      decide
    simp [serveHTTP, hr, hfm]

/-! ### C10: `rewriteRequest` and the ignored parse error -/

/-- C10: `rewriteRequest` ignores the error of parsing the inbound
`RequestURI` (`u, _ := url.ParseRequestURI(...)`): whenever the parse
fails (a nil `*url.URL`), the immediate `u.Host` assignment dereferences
nil, modelled as the `none` outcome; the absence of that dereference is
guaranteed exactly under the precondition that the inbound `RequestURI`
parses. -/
theorem rewriteRequest_nil_guard :
    (∀ (parse : String → Option URL) (pr : ProxyRequest),
        parse pr.inRequestURI = none → rewriteRequest parse pr = none) ∧
    (∀ (parse : String → Option URL) (pr : ProxyRequest) (u : URL),
        parse pr.inRequestURI = some u → (rewriteRequest parse pr).isSome = true) := by
  constructor
  · intro parse pr h
    unfold rewriteRequest
    rw [h]
  · intro parse pr u h
    unfold rewriteRequest
    rw [h]
    simp

/-! ### C3: the Cache-Control parser -/

/-- C3 counterexample: the claim says the `max-age` value is parsed as a
non-negative integer (so the recorded duration could never be negative),
but `strconv.Atoi` accepts signed integers: on `"max-age=-5"` the parse
succeeds and the recorded `MaxAge` is minus five seconds. -/
theorem parseCacheControl_negative_max_age :
    (parseCacheControl "max-age=-5").maxAge = -5000000000 ∧
      (parseCacheControl "max-age=-5").maxAge < 0 ∧
      (parseCacheControl "max-age=-5").has "max-age" = true := by
  refine ⟨by decide, by decide, by decide⟩

/-- The key of one already-trimmed element: everything before the first
`=` (the whole element when there is none). -/
def keyOf (e : List Char) : String := String.mk (cutEq e).1

/-- The claim's `max-age` rule on one already-trimmed element, amended to
the signed parse the source performs: when the element is
`max-age=<value>` and the value parses as an integer, that many seconds
replace the accumulator, otherwise the accumulator stays. -/
def maStep (m : Int) (e : List Char) : Int :=
  let t := cutEq e
  if t.2.2 && t.1 == "max-age".toList then
    match atoi t.2.1 with
    | some sec => wrap64 (sec * 1000000000)
    | none => m
  else m

/-- The claim's description of the parser (amended): split on commas,
trim whitespace from each element, record each element's key; the
`max-age` value is parsed as a signed integer, and on parse failure the
numeric stays at its previous value (initially zero) while the key is
still recorded. -/
def parseCacheControlSpec (s : String) : CacheControl :=
  let elems := (splitComma s.toList).map trimSpace
  { keys := elems.map keyOf, maxAge := elems.foldl maStep 0 }

/-- One `ccStep` records exactly the element's key on top of the
accumulated keys. -/
theorem ccStep_keys (acc : CacheControl) (v : List Char) :
    (ccStep acc v).keys = keyOf (trimSpace v) :: acc.keys := by
  simp only [ccStep, keyOf]
  by_cases hc : ((cutEq (trimSpace v)).2.2 = true ∧
      (cutEq (trimSpace v)).1 = ['m', 'a', 'x', '-', 'a', 'g', 'e'])
  · cases ha : atoi (cutEq (trimSpace v)).2.1 <;> simp [hc, ha]
  · simp [hc]

/-- One `ccStep` updates the duration exactly as the claim's `max-age`
rule on the trimmed element. -/
theorem ccStep_maxAge (acc : CacheControl) (v : List Char) :
    (ccStep acc v).maxAge = maStep acc.maxAge (trimSpace v) := by
  simp only [ccStep, maStep]
  by_cases hc : ((cutEq (trimSpace v)).2.2 = true ∧
      (cutEq (trimSpace v)).1 = ['m', 'a', 'x', '-', 'a', 'g', 'e'])
  · cases ha : atoi (cutEq (trimSpace v)).2.1 <;> simp [hc, ha]
  · simp [hc]

/-- The fold of `ccStep` accumulates the trimmed elements' keys (in
reverse) on top of the starting keys. -/
theorem foldl_ccStep_keys (L : List (List Char)) (acc : CacheControl) :
    (L.foldl ccStep acc).keys =
      (L.map (fun v => keyOf (trimSpace v))).reverse ++ acc.keys := by
  induction L generalizing acc with
  | nil => simp
  | cons v L ih =>
    simp only [List.foldl_cons, List.map_cons, List.reverse_cons, ih, ccStep_keys,
      List.append_assoc, List.cons_append, List.nil_append]

/-- The fold of `ccStep` computes the duration as the fold of the
claim's `max-age` rule over the trimmed elements. -/
theorem foldl_ccStep_maxAge (L : List (List Char)) (acc : CacheControl) :
    (L.foldl ccStep acc).maxAge =
      (L.map trimSpace).foldl maStep acc.maxAge := by
  induction L generalizing acc with
  | nil => rfl
  | cons v L ih =>
    simp only [List.foldl_cons, List.map_cons, ih, ccStep_maxAge]

/-- C3 (amended): `parseCacheControl` splits on commas, trims whitespace
from each element, and records each element's key in the key set; the
`max-age` value is parsed as a **signed** integer (`strconv.Atoi`), and on
parse failure the numeric `max-age` is left unchanged (zero unless an
earlier element set it) while the key `max-age` is still recorded — that
is, it agrees with `parseCacheControlSpec`, which is written from the
amended claim. -/
theorem parseCacheControl_spec_equiv (s : String) (k : String) :
    (parseCacheControl s).maxAge = (parseCacheControlSpec s).maxAge ∧
      ((parseCacheControl s).has k = true ↔
        k ∈ (parseCacheControlSpec s).keys) := by
  constructor
  · rw [parseCacheControl, parseCacheControlSpec, foldl_ccStep_maxAge]
  · rw [parseCacheControl, parseCacheControlSpec]
    simp only [CacheControl.has, foldl_ccStep_keys, List.elem_iff, List.append_nil,
      List.mem_reverse, List.map_map]
    rfl

/-! ### Branch lemmas for `serveHTTP` and `forwardOrigin` -/

/-- A non-target host short-circuits to the 502 rejection. -/
theorem serveHTTP_eq_reject (cfg : Config) (r : Request) (hash : String) (env : Env)
    (hhost : hostMatchesTarget r.host cfg.targets = false) :
    serveHTTP cfg r hash env =
      { status := 502, header := emptyHeaders, body := [],
        counters := { Counters.zero with reqReceived := 1 }, trace := [] } := by
  simp only [serveHTTP]
  rw [hhost]
  rfl

/-- A non-cacheable request goes straight to the forward path. -/
theorem serveHTTP_eq_noncacheable (cfg : Config) (r : Request) (hash : String) (env : Env)
    (hhost : hostMatchesTarget r.host cfg.targets = true)
    (hcan : canCacheRequest r = false) :
    serveHTTP cfg r hash env =
      forwardOrigin hash env false { Counters.zero with reqReceived := 1 } [] := by
  simp only [serveHTTP]
  rw [hhost, hcan]
  rfl

/-- A memory hit serves the entry with disposition `hit, memory`. -/
theorem serveHTTP_eq_memHit (cfg : Config) (r : Request) (hash : String) (env : Env)
    (e : Entry)
    (hhost : hostMatchesTarget r.host cfg.targets = true)
    (hcan : canCacheRequest r = true)
    (hm : env.memLoad = some e) :
    serveHTTP cfg r hash env =
      { status := 200, header := setXCacheInfo e.hdr "hit, memory" hash,
        body := e.body,
        counters := { Counters.zero with reqReceived := 1, reqMemoryHit := 1 },
        trace := [Event.memLoad hash] } := by
  simp only [serveHTTP]
  rw [hhost, hcan, hm]
  rfl

/-- A local hit after a memory miss serves the entry with disposition
`hit, local`. -/
theorem serveHTTP_eq_localHit (cfg : Config) (r : Request) (hash : String) (env : Env)
    (e : Entry)
    (hhost : hostMatchesTarget r.host cfg.targets = true)
    (hcan : canCacheRequest r = true)
    (hm : env.memLoad = none) (hl : env.localLoad = some e) :
    serveHTTP cfg r hash env =
      { status := 200, header := setXCacheInfo e.hdr "hit, local" hash,
        body := e.body,
        counters := { Counters.zero with reqReceived := 1, reqLocalHit := 1 },
        trace := [Event.memLoad hash, Event.localLoad hash] } := by
  simp only [serveHTTP]
  rw [hhost, hcan, hm, hl]
  rfl

/-- An S3 hit after memory and local misses faults the entry into the
local cache and serves it with disposition `hit, remote`. -/
theorem serveHTTP_eq_s3Hit (cfg : Config) (r : Request) (hash : String) (env : Env)
    (e : Entry)
    (hhost : hostMatchesTarget r.host cfg.targets = true)
    (hcan : canCacheRequest r = true)
    (hm : env.memLoad = none) (hl : env.localLoad = none)
    (hs : env.s3Load = some e) :
    serveHTTP cfg r hash env =
      { status := 200, header := setXCacheInfo e.hdr "hit, remote" hash,
        body := e.body,
        counters := { Counters.zero with reqReceived := 1, reqLocalMiss := 1,
                                         reqFaultHit := 1 },
        trace := [Event.memLoad hash, Event.localLoad hash, Event.s3Load hash,
                  Event.localStore hash e.body env.localStoreOk] } := by
  simp only [serveHTTP]
  rw [hhost, hcan, hm, hl, hs]
  rfl

/-- A full miss of a cacheable request reaches the forward path with the
miss counters and the three lookup events. -/
theorem serveHTTP_eq_allMiss (cfg : Config) (r : Request) (hash : String) (env : Env)
    (hhost : hostMatchesTarget r.host cfg.targets = true)
    (hcan : canCacheRequest r = true)
    (hm : env.memLoad = none) (hl : env.localLoad = none)
    (hs : env.s3Load = none) :
    serveHTTP cfg r hash env =
      forwardOrigin hash env true
        { Counters.zero with reqReceived := 1, reqLocalMiss := 1, reqFaultMiss := 1 }
        [Event.memLoad hash, Event.localLoad hash, Event.s3Load hash] := by
  simp only [serveHTTP]
  rw [hhost, hcan, hm, hl, hs]
  rfl

/-- Forwarding a non-cacheable request passes the origin response through
untouched. -/
theorem forwardOrigin_eq_passthrough (hash : String) (env : Env) (c : Counters)
    (tr : List Event) :
    forwardOrigin hash env false c tr =
      { status := env.originRsp.status, header := env.originRsp.header,
        body := env.originRsp.body,
        counters := { c with reqForward := c.reqForward + 1 },
        trace := tr ++ [Event.forward] } := by
  simp only [forwardOrigin]
  rfl

/-- An uncacheable origin response gets disposition `fetch, uncached` and
no cache write. -/
theorem forwardOrigin_eq_uncached (hash : String) (env : Env) (c : Counters)
    (tr : List Event)
    (hcc : canCacheResponse env.originRsp = false)
    (hv : (canMemoryCache env.originRsp).2 = false) :
    forwardOrigin hash env true c tr =
      { status := env.originRsp.status,
        header := setXCacheInfo env.originRsp.header "fetch, uncached" "",
        body := env.originRsp.body,
        counters := { c with reqForward := c.reqForward + 1,
                             rspNotCached := c.rspNotCached + 1 },
        trace := tr ++ [Event.forward] } := by
  simp only [forwardOrigin]
  rw [hcc, hv]
  rfl

/-- A volatile-only origin response gets disposition
`fetch, cached, volatile` and a memory write. -/
theorem forwardOrigin_eq_volatile (hash : String) (env : Env) (c : Counters)
    (tr : List Event)
    (hcc : canCacheResponse env.originRsp = false)
    (hv : (canMemoryCache env.originRsp).2 = true) :
    forwardOrigin hash env true c tr =
      { status := env.originRsp.status,
        header := setXCacheInfo env.originRsp.header "fetch, cached, volatile" hash,
        body := env.originRsp.body,
        counters := { c with reqForward := c.reqForward + 1,
                             rspSaveMem := c.rspSaveMem + 1 },
        trace := tr ++ [Event.forward,
          Event.memStore hash (canMemoryCache env.originRsp).1 env.originRsp.body] } := by
  simp only [forwardOrigin]
  rw [hcc, hv]
  rfl

/-- A durably cacheable origin response with a successful local write:
disposition `fetch, cached`, save counters, and an S3 push submitted after
the local write. -/
theorem forwardOrigin_eq_durable_ok (hash : String) (env : Env) (c : Counters)
    (tr : List Event)
    (hcc : canCacheResponse env.originRsp = true)
    (hok : env.localStoreOk = true) :
    forwardOrigin hash env true c tr =
      { status := env.originRsp.status,
        header := setXCacheInfo env.originRsp.header "fetch, cached" hash,
        body := env.originRsp.body,
        counters := { c with reqForward := c.reqForward + 1,
                             rspSave := c.rspSave + 1,
                             rspSaveBytes := c.rspSaveBytes + env.originRsp.body.length },
        trace := tr ++ [Event.forward,
          Event.localStore hash env.originRsp.body true,
          Event.s3Store hash env.originRsp.body] } := by
  simp only [forwardOrigin]
  rw [hcc, hok]
  simp

/-- A durably cacheable origin response with a failing local write:
disposition `fetch, cached`, the error counter, and no S3 push. -/
theorem forwardOrigin_eq_durable_err (hash : String) (env : Env) (c : Counters)
    (tr : List Event)
    (hcc : canCacheResponse env.originRsp = true)
    (hok : env.localStoreOk = false) :
    forwardOrigin hash env true c tr =
      { status := env.originRsp.status,
        header := setXCacheInfo env.originRsp.header "fetch, cached" hash,
        body := env.originRsp.body,
        counters := { c with reqForward := c.reqForward + 1,
                             rspSaveError := c.rspSaveError + 1 },
        trace := tr ++ [Event.forward,
          Event.localStore hash env.originRsp.body false] } := by
  simp only [forwardOrigin]
  rw [hcc, hok]
  simp

/-! ### C2: the X-Cache disposition header -/

/-- A GET request for a configured target whose own `Cache-Control` says
`no-store`. -/
def cexC2Req : Request where
  method := "GET"
  host := "x.example"
  header := Headers.set emptyHeaders "Cache-Control" "no-store"

/-- A one-target configuration. -/
def cexC2Cfg : Config where
  targets := ["x.example"]

/-- An environment where every tier misses and the origin answers 200
with no headers. -/
def cexC2Env : Env where
  memLoad := none
  localLoad := none
  s3Load := none
  localStoreOk := true
  originRsp := { status := 200, header := emptyHeaders, body := [120] }

/-- C2 counterexample: a GET request to a configured target whose request
`Cache-Control` contains `no-store` makes `canCacheRequest` false, so
`ServeHTTP` never installs the response hook and the forwarded response
carries **no** `X-Cache` header, not exactly one. -/
theorem serveHTTP_nostore_no_xcache :
    cexC2Req.method = "GET" ∧
      hostMatchesTarget cexC2Req.host cexC2Cfg.targets = true ∧
      (serveHTTP cexC2Cfg cexC2Req "68656c6c6f" cexC2Env).header "X-Cache" = [] := by
  exact ⟨rfl, by decide, by decide⟩

/-- Every branch of the cacheable forward path sets exactly one of the
three fetch dispositions. -/
theorem forwardOrigin_xcache (hash : String) (env : Env) (c : Counters)
    (tr : List Event) :
    ∃ d, d ∈ dispositions ∧
      (forwardOrigin hash env true c tr).header "X-Cache" = [d] := by
  cases hcc : canCacheResponse env.originRsp with
  | false =>
    cases hv : (canMemoryCache env.originRsp).2 with
    | false =>
      refine ⟨"fetch, uncached", by decide, ?_⟩
      rw [forwardOrigin_eq_uncached hash env c tr hcc hv]
      exact setXCacheInfo_get_xcache env.originRsp.header "fetch, uncached" ""
    | true =>
      refine ⟨"fetch, cached, volatile", by decide, ?_⟩
      rw [forwardOrigin_eq_volatile hash env c tr hcc hv]
      exact setXCacheInfo_get_xcache env.originRsp.header "fetch, cached, volatile" hash
  | true =>
    cases hok : env.localStoreOk with
    | false =>
      refine ⟨"fetch, cached", by decide, ?_⟩
      rw [forwardOrigin_eq_durable_err hash env c tr hcc hok]
      exact setXCacheInfo_get_xcache env.originRsp.header "fetch, cached" hash
    | true =>
      refine ⟨"fetch, cached", by decide, ?_⟩
      rw [forwardOrigin_eq_durable_ok hash env c tr hcc hok]
      exact setXCacheInfo_get_xcache env.originRsp.header "fetch, cached" hash

/-- C2 (amended): for every request with method GET whose Host is in the
configured Targets list **and whose request Cache-Control does not
contain no-store**, the response produced by `ServeHTTP` carries exactly
one `X-Cache` header, and its value is one of the six disposition tokens.
The original claim extended this to GET requests whose Cache-Control
contains `no-store`; for those `canCacheRequest` is false, the response
hook is never installed, and the forwarded response carries no `X-Cache`
header at all (see the counterexample). -/
theorem serveHTTP_xcache_disposition (cfg : Config) (r : Request) (hash : String)
    (env : Env)
    (hhost : hostMatchesTarget r.host cfg.targets = true)
    (hmeth : r.method = "GET")
    (hns : (parseCacheControl (r.header.get "Cache-Control")).has "no-store" = false) :
    ∃ d, d ∈ dispositions ∧
      (serveHTTP cfg r hash env).header "X-Cache" = [d] := by
  have hcan : canCacheRequest r = true := by
    simp [canCacheRequest, hmeth, hns]
  cases hm : env.memLoad with
  | some e =>
    refine ⟨"hit, memory", by decide, ?_⟩
    rw [serveHTTP_eq_memHit cfg r hash env e hhost hcan hm]
    exact setXCacheInfo_get_xcache e.hdr "hit, memory" hash
  | none =>
    cases hl : env.localLoad with
    | some e =>
      refine ⟨"hit, local", by decide, ?_⟩
      rw [serveHTTP_eq_localHit cfg r hash env e hhost hcan hm hl]
      exact setXCacheInfo_get_xcache e.hdr "hit, local" hash
    | none =>
      cases hs : env.s3Load with
      | some e =>
        refine ⟨"hit, remote", by decide, ?_⟩
        rw [serveHTTP_eq_s3Hit cfg r hash env e hhost hcan hm hl hs]
        exact setXCacheInfo_get_xcache e.hdr "hit, remote" hash
      | none =>
        rw [serveHTTP_eq_allMiss cfg r hash env hhost hcan hm hl hs]
        exact forwardOrigin_xcache _ _ _ _

/-- A plain GET request for the configured target. -/
def witC2Req : Request where
  method := "GET"
  host := "x.example"
  header := emptyHeaders

/-- Witness for C2 (amended) at a concrete cacheable GET request. -/
theorem serveHTTP_xcache_disposition_witness :
    ∃ d, d ∈ dispositions ∧
      (serveHTTP cexC2Cfg witC2Req "6162" cexC2Env).header "X-Cache" = [d] :=
  serveHTTP_xcache_disposition cexC2Cfg witC2Req "6162" cexC2Env
    (by decide) rfl (by decide)

/-! ### C5: non-cacheable requests touch no cache tier -/

/-- C5: for every request that is not cacheable (`canCacheRequest` false:
the method is not GET, or the request `Cache-Control` contains
`no-store`), `ServeHTTP` performs no memory, local, or remote lookup and
no write to any tier — the trace is exactly the origin forward — and the
origin response passes through to the client. -/
theorem serveHTTP_noncacheable_frame (cfg : Config) (r : Request) (hash : String)
    (env : Env)
    (hhost : hostMatchesTarget r.host cfg.targets = true)
    (hcan : canCacheRequest r = false) :
    (serveHTTP cfg r hash env).trace = [Event.forward] ∧
      (serveHTTP cfg r hash env).counters =
        { Counters.zero with reqReceived := 1, reqForward := 1 } ∧
      (serveHTTP cfg r hash env).status = env.originRsp.status ∧
      (serveHTTP cfg r hash env).header = env.originRsp.header ∧
      (serveHTTP cfg r hash env).body = env.originRsp.body := by
  rw [serveHTTP_eq_noncacheable cfg r hash env hhost hcan,
    forwardOrigin_eq_passthrough]
  exact ⟨rfl, rfl, rfl, rfl, rfl⟩

/-- A POST request for the configured target. -/
def witC5Req : Request where
  method := "POST"
  host := "y.example"
  header := emptyHeaders

/-- A one-target configuration for the C5 witness. -/
def witC5Cfg : Config where
  targets := ["y.example"]

/-- An environment for the C5 witness. -/
def witC5Env : Env where
  memLoad := none
  localLoad := none
  s3Load := none
  localStoreOk := true
  originRsp := { status := 201, header := emptyHeaders, body := [1] }

/-- Witness for C5 at a concrete POST request. -/
theorem serveHTTP_noncacheable_frame_witness :
    (serveHTTP witC5Cfg witC5Req "ab" witC5Env).trace = [Event.forward] ∧
      (serveHTTP witC5Cfg witC5Req "ab" witC5Env).counters =
        { Counters.zero with reqReceived := 1, reqForward := 1 } ∧
      (serveHTTP witC5Cfg witC5Req "ab" witC5Env).status = witC5Env.originRsp.status ∧
      (serveHTTP witC5Cfg witC5Req "ab" witC5Env).header = witC5Env.originRsp.header ∧
      (serveHTTP witC5Cfg witC5Req "ab" witC5Env).body = witC5Env.originRsp.body :=
  serveHTTP_noncacheable_frame witC5Cfg witC5Req "ab" witC5Env (by decide) (by decide)

/-! ### C6: durable store, local write first, remote only on success -/

/-- C6: for a cacheable request that misses every tier and receives a
durably cacheable origin response, a failing synchronous local store
increments `rsp_save_error` and no background S3 store is submitted; a
successful local store increments `rsp_save`, adds the body length to
`rsp_save_bytes`, and then submits the background S3 store — so an S3
store appears in the trace only after (to the right of) a successful
local store of the same hash and body — and the client receives the
origin response in either case. -/
theorem serveHTTP_durable_store (cfg : Config) (r : Request) (hash : String)
    (env : Env)
    (hhost : hostMatchesTarget r.host cfg.targets = true)
    (hcan : canCacheRequest r = true)
    (hm : env.memLoad = none) (hl : env.localLoad = none) (hs : env.s3Load = none)
    (hdur : canCacheResponse env.originRsp = true) :
    (env.localStoreOk = false →
        (serveHTTP cfg r hash env).counters.rspSaveError = 1 ∧
        (serveHTTP cfg r hash env).counters.rspSave = 0 ∧
        (serveHTTP cfg r hash env).trace =
          [Event.memLoad hash, Event.localLoad hash, Event.s3Load hash,
           Event.forward, Event.localStore hash env.originRsp.body false] ∧
        (∀ h b, Event.s3Store h b ∉ (serveHTTP cfg r hash env).trace)) ∧
      (env.localStoreOk = true →
        (serveHTTP cfg r hash env).counters.rspSave = 1 ∧
        (serveHTTP cfg r hash env).counters.rspSaveError = 0 ∧
        (serveHTTP cfg r hash env).counters.rspSaveBytes = env.originRsp.body.length ∧
        (serveHTTP cfg r hash env).trace =
          [Event.memLoad hash, Event.localLoad hash, Event.s3Load hash,
           Event.forward, Event.localStore hash env.originRsp.body true,
           Event.s3Store hash env.originRsp.body]) ∧
      (∀ h b, Event.s3Store h b ∈ (serveHTTP cfg r hash env).trace →
        Event.localStore h b true ∈ (serveHTTP cfg r hash env).trace) ∧
      (serveHTTP cfg r hash env).body = env.originRsp.body ∧
      (serveHTTP cfg r hash env).status = env.originRsp.status := by
  rw [serveHTTP_eq_allMiss cfg r hash env hhost hcan hm hl hs]
  cases hok : env.localStoreOk with
  | false =>
    rw [forwardOrigin_eq_durable_err hash env _ _ hdur hok]
    refine ⟨fun _ => ⟨rfl, rfl, rfl, ?_⟩, fun hc => absurd hc (by simp [hok]),
      ?_, rfl, rfl⟩
    · intro h b
      simp
    · intro h b hmem
      simp at hmem
  | true =>
    rw [forwardOrigin_eq_durable_ok hash env _ _ hdur hok]
    refine ⟨fun hc => absurd hc (by simp [hok]),
      fun _ => ⟨rfl, rfl, by simp [Counters.zero], rfl⟩, ?_, rfl, rfl⟩
    intro h b hmem
    simp only [List.cons_append, List.nil_append, List.mem_cons,
      List.not_mem_nil, or_false] at hmem
    rcases hmem with h1 | h1 | h1 | h1 | h1 | h1
    · cases h1
    · cases h1
    · cases h1
    · cases h1
    · cases h1
    · cases h1
      show Event.localStore hash env.originRsp.body true ∈
        [Event.memLoad hash, Event.localLoad hash, Event.s3Load hash,
         Event.forward, Event.localStore hash env.originRsp.body true,
         Event.s3Store hash env.originRsp.body]
      simp

/-- A GET request for the C6 witness. -/
def witC6Req : Request where
  method := "GET"
  host := "z.example"
  header := emptyHeaders

/-- A one-target configuration for the C6 witness. -/
def witC6Cfg : Config where
  targets := ["z.example"]

/-- All tiers miss; the origin answers 200 with `Cache-Control:
immutable`; the local store succeeds. -/
def witC6Env : Env where
  memLoad := none
  localLoad := none
  s3Load := none
  localStoreOk := true
  originRsp :=
    { status := 200, header := Headers.set emptyHeaders "Cache-Control" "immutable",
      body := [104, 105] }

/-- Witness for C6 at a concrete durable fetch. -/
theorem serveHTTP_durable_store_witness :
    (witC6Env.localStoreOk = true →
        (serveHTTP witC6Cfg witC6Req "cd" witC6Env).counters.rspSave = 1 ∧
        (serveHTTP witC6Cfg witC6Req "cd" witC6Env).counters.rspSaveError = 0 ∧
        (serveHTTP witC6Cfg witC6Req "cd" witC6Env).counters.rspSaveBytes =
          witC6Env.originRsp.body.length ∧
        (serveHTTP witC6Cfg witC6Req "cd" witC6Env).trace =
          [Event.memLoad "cd", Event.localLoad "cd", Event.s3Load "cd",
           Event.forward, Event.localStore "cd" witC6Env.originRsp.body true,
           Event.s3Store "cd" witC6Env.originRsp.body]) ∧
      (serveHTTP witC6Cfg witC6Req "cd" witC6Env).body = witC6Env.originRsp.body :=
  ⟨(serveHTTP_durable_store witC6Cfg witC6Req "cd" witC6Env (by decide) (by decide)
      rfl rfl rfl (by decide)).2.1,
    (serveHTTP_durable_store witC6Cfg witC6Req "cd" witC6Env (by decide) (by decide)
      rfl rfl rfl (by decide)).2.2.2.1⟩

/-! ### C7: fault-in from the remote tier -/

/-- C7: a cacheable request that misses memory and local but hits the
remote tier increments `req_fault_hit`, synchronously attempts the local
write of the entry (the only store event in the trace, before any
response), sets `X-Cache: hit, remote` and `X-Cache-Id` to the hash, and
serves the entry's headers and body. The conclusion does not depend on
`env.localStoreOk`: a failing local write leaves the served response
unchanged. -/
theorem serveHTTP_remote_fault_in (cfg : Config) (r : Request) (hash : String)
    (env : Env) (e : Entry)
    (hhost : hostMatchesTarget r.host cfg.targets = true)
    (hcan : canCacheRequest r = true)
    (hm : env.memLoad = none) (hl : env.localLoad = none)
    (hs : env.s3Load = some e)
    (hhash : hash ≠ "") :
    (serveHTTP cfg r hash env).counters =
        { Counters.zero with reqReceived := 1, reqLocalMiss := 1, reqFaultHit := 1 } ∧
      (serveHTTP cfg r hash env).trace =
        [Event.memLoad hash, Event.localLoad hash, Event.s3Load hash,
         Event.localStore hash e.body env.localStoreOk] ∧
      (serveHTTP cfg r hash env).header "X-Cache" = ["hit, remote"] ∧
      (serveHTTP cfg r hash env).header "X-Cache-Id" = [hash] ∧
      (serveHTTP cfg r hash env).body = e.body ∧
      (∀ k, k ≠ "X-Cache" → k ≠ "X-Cache-Id" →
        (serveHTTP cfg r hash env).header k = e.hdr k) := by
  rw [serveHTTP_eq_s3Hit cfg r hash env e hhost hcan hm hl hs]
  exact ⟨rfl, rfl, setXCacheInfo_get_xcache e.hdr "hit, remote" hash,
    setXCacheInfo_get_id e.hdr "hit, remote" hash hhash, rfl,
    fun k h1 h2 => setXCacheInfo_get_other e.hdr "hit, remote" hash k h1 h2⟩

/-- A GET request for the C7 witness. -/
def witC7Req : Request where
  method := "GET"
  host := "w.example"
  header := emptyHeaders

/-- A one-target configuration for the C7 witness. -/
def witC7Cfg : Config where
  targets := ["w.example"]

/-- The remote entry for the C7 witness. -/
def witC7Entry : Entry where
  hdr := Headers.set emptyHeaders "Content-Type" "text/plain"
  body := [104]

/-- Memory and local miss; the remote tier hits; the fault-in local write
fails, which must not change the served response. -/
def witC7Env : Env where
  memLoad := none
  localLoad := none
  s3Load := some witC7Entry
  localStoreOk := false
  originRsp := { status := 200, header := emptyHeaders, body := [] }

/-- Witness for C7 at a concrete remote hit with a failing local write. -/
theorem serveHTTP_remote_fault_in_witness :
    (serveHTTP witC7Cfg witC7Req "ef" witC7Env).counters =
        { Counters.zero with reqReceived := 1, reqLocalMiss := 1, reqFaultHit := 1 } ∧
      (serveHTTP witC7Cfg witC7Req "ef" witC7Env).trace =
        [Event.memLoad "ef", Event.localLoad "ef", Event.s3Load "ef",
         Event.localStore "ef" witC7Entry.body witC7Env.localStoreOk] ∧
      (serveHTTP witC7Cfg witC7Req "ef" witC7Env).header "X-Cache" = ["hit, remote"] ∧
      (serveHTTP witC7Cfg witC7Req "ef" witC7Env).header "X-Cache-Id" = ["ef"] ∧
      (serveHTTP witC7Cfg witC7Req "ef" witC7Env).body = witC7Entry.body ∧
      (∀ k, k ≠ "X-Cache" → k ≠ "X-Cache-Id" →
        (serveHTTP witC7Cfg witC7Req "ef" witC7Env).header k = witC7Entry.hdr k) :=
  serveHTTP_remote_fault_in witC7Cfg witC7Req "ef" witC7Env witC7Entry
    (by decide) (by decide) rfl rfl rfl (by decide)

/-! ### C8: rejected target -/

/-- C8: a request whose Host is not in the configured Targets list is
answered 502 and nothing else happens: no cache tier is consulted or
written, the request is not forwarded, and no counter other than
`req_received` changes. -/
theorem serveHTTP_reject_target (cfg : Config) (r : Request) (hash : String)
    (env : Env)
    (hhost : hostMatchesTarget r.host cfg.targets = false) :
    (serveHTTP cfg r hash env).status = 502 ∧
      (serveHTTP cfg r hash env).trace = [] ∧
      Event.forward ∉ (serveHTTP cfg r hash env).trace ∧
      (serveHTTP cfg r hash env).counters =
        { Counters.zero with reqReceived := 1 } := by
  rw [serveHTTP_eq_reject cfg r hash env hhost]
  exact ⟨rfl, rfl, by simp, rfl⟩

/-- A GET request whose host is configured nowhere. -/
def witC8Req : Request where
  method := "GET"
  host := "evil.example"
  header := emptyHeaders

/-- A one-target configuration for the C8 witness. -/
def witC8Cfg : Config where
  targets := ["good.example"]

/-- An environment for the C8 witness. -/
def witC8Env : Env where
  memLoad := none
  localLoad := none
  s3Load := none
  localStoreOk := true
  originRsp := { status := 200, header := emptyHeaders, body := [] }

/-- Witness for C8 at a concrete non-target request. -/
theorem serveHTTP_reject_target_witness :
    (serveHTTP witC8Cfg witC8Req "01" witC8Env).status = 502 ∧
      (serveHTTP witC8Cfg witC8Req "01" witC8Env).trace = [] ∧
      Event.forward ∉ (serveHTTP witC8Cfg witC8Req "01" witC8Env).trace ∧
      (serveHTTP witC8Cfg witC8Req "01" witC8Env).counters =
        { Counters.zero with reqReceived := 1 } :=
  serveHTTP_reject_target witC8Cfg witC8Req "01" witC8Env (by decide)

end RevProxy
